import Mathlib

/-!
Shallow embedding of `homeassistant/components/homekit_controller/__init__.py`
(the HomeKit connection lifecycle manager) and proofs about it.

Modelling conventions:
* Exceptions raised by Python code become an explicit `Exn` inductive; a call
  that may raise returns `Except Exn _` (or the surrounding function threads
  an `outcome : Except Exn _` field through its result record).
* The outcomes of operations on external collaborator objects (`HKDevice
  .async_setup`, `pairing.close`, `controller.remove_pairing`,
  `pairing.thread_provision`, `HKDevice.async_unload`) are inputs to the
  embedded functions: the embedding is universally quantified over what the
  collaborator does, and records every call it makes in its result record.
* `hass.data[KNOWN_DEVICES]` (the connection registry, a Python dict keyed by
  device id strings) is an association list with Python-dict semantics:
  assignment to an existing key updates in place, to a fresh key appends;
  `del` removes the key; `values()` lists entries in insertion order.
* Log output is modelled as the list of warning-record message strings the
  function emits, in order (every log call in this module is at warning
  level).
-/

/-- The exception kinds that the module's control flow distinguishes.
`timeoutError` is `asyncio.TimeoutError`; the three accessory errors come
from `aiohomekit.exceptions`; `configEntryNotReady` is Home Assistant's
retryable-setup signal; `keyError` is Python's dict-lookup failure; every
exception class the module does not mention is some `otherError`. -/
inductive Exn where
  | timeoutError
  | accessoryNotFoundError
  | encryptionError
  | accessoryDisconnectedError
  | configEntryNotReady
  | keyError (key : String)
  | otherError (tag : String)
deriving DecidableEq, Repr

instance {ε α : Type} [DecidableEq ε] [DecidableEq α] : DecidableEq (Except ε α) :=
  fun a b =>
    match a, b with
    | .ok x, .ok y =>
        if h : x = y then .isTrue (by rw [h]) else .isFalse (by simp [h])
    | .error x, .error y =>
        if h : x = y then .isTrue (by rw [h]) else .isFalse (by simp [h])
    | .ok _, .error _ => .isFalse (by simp)
    | .error _, .ok _ => .isFalse (by simp)

/-- An accessory inside a connection's entity map (only its identity matters
to this module). -/
structure Accessory where
  aid : Nat
deriving DecidableEq, Repr

/-- An `HKDevice` connection handle as far as this module inspects it: its
`unique_id`, the accessories of its `entity_map`, and a tag distinguishing
distinct Python objects that happen to share a `unique_id`. -/
structure Conn where
  unique_id : String
  accessories : List Accessory
  tag : Nat
deriving DecidableEq, Repr

/-- The connection registry `hass.data[KNOWN_DEVICES]`. -/
abbrev Registry : Type := List (String × Conn)

/-- Python dict membership: `k in d`. -/
def dictContains (d : Registry) (k : String) : Bool :=
  d.any (fun p => p.1 = k)

/-- Python dict assignment `d[k] = v`: update in place if the key exists,
append otherwise. -/
def dictInsert (d : Registry) (k : String) (v : Conn) : Registry :=
  if dictContains d k then d.map (fun p => if p.1 = k then (k, v) else p)
  else d ++ [(k, v)]

/-- Python dict deletion `del d[k]` (the module only deletes keys it has just
inserted, so the key is always present). -/
def dictErase (d : Registry) (k : String) : Registry :=
  d.filter (fun p => p.1 ≠ k)

/-- Python dict lookup `d[k]`, `None`-valued when `k` is absent. -/
def dictLookup (d : Registry) (k : String) : Option Conn :=
  (d.find? (fun p => p.1 = k)).map Prod.snd

/-- Python `d.values()`, in insertion order. -/
def dictValues (d : Registry) : List Conn :=
  d.map Prod.snd

/-- The exception classes named in `async_setup_entry`'s `except` tuple:
`asyncio.TimeoutError`, `AccessoryNotFoundError`, `EncryptionError`,
`AccessoryDisconnectedError`. -/
def transientExn (e : Exn) : Bool :=
  match e with
  | .timeoutError => true
  | .accessoryNotFoundError => true
  | .encryptionError => true
  | .accessoryDisconnectedError => true
  | _ => false

/-- Result record of `async_setup_entry`: the registry after the call, the
call's outcome (`.ok true` is Python `return True`), whether
`conn.pairing.close()` was attempted during cleanup, and whether the
backwards-compat `async_update_entry` branch ran. -/
structure SetupEntryResult where
  registry : Registry
  outcome : Except Exn Bool
  closeAttempted : Bool
  entryUniqueIdUpdated : Bool
deriving DecidableEq, Repr

/-- Embedding of `async_setup_entry`. Inputs beyond the pre-state:
`entryUniqueIdIsNone` mirrors `entry.unique_id is None`; `setupOutcome` is
what `conn.async_setup()` does (`none` = returns, `some e` = raises `e`);
`closeOutcome` is what `conn.pairing.close()` does if it is reached. -/
def async_setup_entry (reg : Registry) (conn : Conn)
    (entryUniqueIdIsNone : Bool)
    (setupOutcome : Option Exn) (closeOutcome : Option Exn) : SetupEntryResult :=
  let reg1 := dictInsert reg conn.unique_id conn
  match setupOutcome with
  | none =>
      { registry := reg1
        outcome := .ok true
        closeAttempted := false
        entryUniqueIdUpdated := entryUniqueIdIsNone }
  | some e =>
      if transientExn e then
        let reg2 := dictErase reg1 conn.unique_id
        match closeOutcome with
        | some ce =>
            if ce = .timeoutError then
              { registry := reg2
                outcome := .error .configEntryNotReady
                closeAttempted := true
                entryUniqueIdUpdated := entryUniqueIdIsNone }
            else
              { registry := reg2
                outcome := .error ce
                closeAttempted := true
                entryUniqueIdUpdated := entryUniqueIdIsNone }
        | none =>
            { registry := reg2
              outcome := .error .configEntryNotReady
              closeAttempted := true
              entryUniqueIdUpdated := entryUniqueIdIsNone }
      else
        { registry := reg1
          outcome := .error e
          closeAttempted := false
          entryUniqueIdUpdated := entryUniqueIdIsNone }

example :
    (async_setup_entry [] { unique_id := "a", accessories := [], tag := 0 }
      false (some .timeoutError) none).registry = [] := by decide

example :
    (async_setup_entry [] { unique_id := "a", accessories := [], tag := 0 }
      false (some (.otherError "ValueError")) none).registry
      = [("a", { unique_id := "a", accessories := [], tag := 0 })] := by decide

/-!
Attribute-name constants. Modelled from the spec: these constants live in
`const.py`, which is not among the provided source files. Their exact string
values influence no claim — they only name the fields inside the diagnostic
log record — so they are taken as fixed distinct strings.
-/

/-- Modelled from the spec: attribute key for the target device identity. -/
def ATTR_HKID : String := "hkid"

/-- Modelled from the spec: attribute key for the Thread network name. -/
def ATTR_THREAD_NETWORK_NAME : String := "network_name"

/-- Modelled from the spec: attribute key for the Thread channel. -/
def ATTR_THREAD_CHANNEL : String := "channel"

/-- Modelled from the spec: attribute key for the Thread PAN id. -/
def ATTR_THREAD_PAN_ID : String := "pan_id"

/-- Modelled from the spec: attribute key for the Thread extended PAN id. -/
def ATTR_THREAD_EXTENDED_PAN_ID : String := "extended_pan_id"

/-- Modelled from the spec: attribute key for the Thread network key. -/
def ATTR_THREAD_NETWORK_KEY : String := "network_key"

/-- Modelled from the spec: attribute key for the unknown flag byte. -/
def ATTR_THREAD_UNKNOWN_FLAG : String := "unknown_flag"

/-- The validated payload of one `thread_provision` service call, typed as the
schema's coercions leave it (`cv.string` fields as strings, `cv.positive_int`
fields as integers). -/
structure ThreadProvisionRequest where
  hkid : String
  network_name : String
  channel : Int
  pan_id : String
  extended_pan_id : String
  network_key : String
  unknown_flag : Int
deriving DecidableEq, Repr

/-- Embedding of the `vol.Schema` passed to `async_register_admin_service`:
`vol.Length` bounds the string length, `cv.positive_int` requires a
non-negative integer, `vol.Range` bounds the integer inclusively, and the
validators of one field are conjoined by `vol.All`. -/
def schemaAccepts (r : ThreadProvisionRequest) : Bool :=
  decide (r.network_name.length ≤ 16) &&
  (decide (0 ≤ r.channel) && decide (11 ≤ r.channel) && decide (r.channel ≤ 26)) &&
  (decide (1 ≤ r.pan_id.length) && decide (r.pan_id.length ≤ 4)) &&
  (decide (1 ≤ r.extended_pan_id.length) && decide (r.extended_pan_id.length ≤ 16)) &&
  (decide (1 ≤ r.network_key.length) && decide (r.network_key.length ≤ 32)) &&
  (decide (0 ≤ r.unknown_flag) && decide (r.unknown_flag ≤ 255))

/-- The message of the diagnostic warning `thread_provision` always emits.
It interpolates every field of the request except the network key, whose
slot carries the literal marker `REDACTED`. -/
def credentialsLogMessage (r : ThreadProvisionRequest) : String :=
  "Provisioning Thread credentials: " ++
  ATTR_HKID ++ "=" ++ r.hkid ++ ", " ++
  ATTR_THREAD_NETWORK_NAME ++ "=" ++ r.network_name ++ ", " ++
  ATTR_THREAD_CHANNEL ++ "=" ++ toString r.channel ++ ", " ++
  ATTR_THREAD_PAN_ID ++ "=" ++ r.pan_id ++ ", " ++
  ATTR_THREAD_EXTENDED_PAN_ID ++ "=" ++ r.extended_pan_id ++ ", " ++
  ATTR_THREAD_NETWORK_KEY ++ "=" ++ "REDACTED" ++ ", " ++
  ATTR_THREAD_UNKNOWN_FLAG ++ "=" ++ toString r.unknown_flag

/-- One call to a connection's `pairing.thread_provision`: the connection it
was issued on and the six forwarded credential fields, in the source's
positional order. -/
structure ProvisionCall where
  conn : Conn
  network_name : String
  channel : Int
  pan_id : String
  extended_pan_id : String
  network_key : String
  unknown_flag : Int
deriving DecidableEq, Repr

/-- Result record of the `thread_provision` service handler: the warnings it
logged in order, every call it made to a connection's
`pairing.thread_provision`, and its outcome. -/
structure ThreadProvisionResult where
  warnings : List String
  provisionCalls : List ProvisionCall
  outcome : Except Exn Unit
deriving DecidableEq, Repr

/-- Embedding of the `thread_provision` service handler (schema already
validated by the service framework). `provisionOutcome` is what
`connection.pairing.thread_provision(...)` does if it is reached. -/
def thread_provision (reg : Registry) (provisionOutcome : Option Exn)
    (req : ThreadProvisionRequest) : ThreadProvisionResult :=
  let diag := credentialsLogMessage req
  match dictLookup reg req.hkid with
  | none =>
      { warnings := [diag, "Unknown HKID"]
        provisionCalls := []
        outcome := .ok () }
  | some conn =>
      let call : ProvisionCall :=
        { conn := conn
          network_name := req.network_name
          channel := req.channel
          pan_id := req.pan_id
          extended_pan_id := req.extended_pan_id
          network_key := req.network_key
          unknown_flag := req.unknown_flag }
      { warnings := [diag]
        provisionCalls := [call]
        outcome :=
          match provisionOutcome with
          | none => .ok ()
          | some e => .error e }

/-- Outcome of dispatching one `thread_provision` service call through the
schema: the framework rejects the payload before the handler runs, or the
handler runs. -/
inductive ServiceDispatch where
  | invalid
  | handled (r : ThreadProvisionResult)
deriving DecidableEq, Repr

/-- The admin-service registration: the framework validates the payload
against the schema and only then invokes the handler. -/
def thread_provision_service (reg : Registry) (provisionOutcome : Option Exn)
    (req : ThreadProvisionRequest) : ServiceDispatch :=
  if schemaAccepts req then .handled (thread_provision reg provisionOutcome req)
  else .invalid

/-- Result record of the shutdown listener: the connections whose
`async_unload` was invoked, and the list `asyncio.gather` assembled, one
resolved unload result per invoked connection. -/
structure StopResult (α : Type) where
  unloadCalls : List Conn
  gathered : List α

/-- Embedding of `_async_stop_homekit_controller`: fan `async_unload` out
over every value of the registry and gather all results. `asyncio.gather`
awaits every coroutine it is given, so the handler resolves only once every
unload has resolved; that is modelled by the gathered list carrying one
resolved result per registered connection. `unload` gives each connection's
unload result (per the collaborator contract the unload operation is
log-and-continue and does not raise). -/
def stop_homekit_controller {α : Type} (unload : Conn → α) (reg : Registry) :
    StopResult α :=
  { unloadCalls := dictValues reg
    gathered := (dictValues reg).map unload }

/-- A config entry's persisted `entry.data` record as this module reads it:
the `AccessoryPairingID` field plus the rest of the pairing record. -/
structure EntryData where
  accessoryPairingID : String
  rest : List (String × String)
deriving DecidableEq, Repr

/-- Result record of `async_unload_entry`: the registry afterwards, the
connections whose `async_unload` was invoked, and the returned value. -/
structure UnloadEntryResult where
  registry : Registry
  unloadCalls : List Conn
  outcome : Except Exn Bool
deriving DecidableEq, Repr

/-- Embedding of `async_unload_entry`. The handler itself never mutates the
registry; `unloadEffect` is whatever effect the connection's `async_unload`
has on it (per the collaborator contract unload is log-and-continue and does
not raise). -/
def async_unload_entry (reg : Registry)
    (unloadEffect : Conn → Registry → Registry) (entry_data : EntryData) :
    UnloadEntryResult :=
  match dictLookup reg entry_data.accessoryPairingID with
  | some conn =>
      { registry := unloadEffect conn reg
        unloadCalls := [conn]
        outcome := .ok true }
  | none =>
      { registry := reg
        unloadCalls := []
        outcome := .ok true }

/-- The operator warning `async_remove_entry` emits when the accessory is
unreachable during unpair (the lazy percent-interpolation of `entry.title`
spelled out). -/
def unpairWarningMessage (title : String) : String :=
  "Accessory " ++ title ++ " was removed from HomeAssistant but was not " ++
  "reachable to properly unpair. It may need resetting before you can use " ++
  "it with HomeKit again"

/-- Result record of `async_remove_entry`: every `controller.load_pairing`
call (pairing id plus the full persisted record it was built from), every
`controller.remove_pairing` call, the warnings logged, and the outcome. -/
structure RemoveEntryResult where
  loadPairingCalls : List (String × EntryData)
  removePairingCalls : List String
  warnings : List String
  outcome : Except Exn Unit
deriving DecidableEq, Repr

/-- Embedding of `async_remove_entry`. The registry is passed in only to
show it is never consulted: the source builds a fresh pairing via
`controller.load_pairing(hkid, dict(entry.data))` and, per its own comment,
does not reuse any object in `hass.data`. `removePairingOutcome` is what
`controller.remove_pairing(hkid)` does. -/
def async_remove_entry (_reg : Registry) (entry_data : EntryData)
    (title : String) (removePairingOutcome : Option Exn) : RemoveEntryResult :=
  let hkid := entry_data.accessoryPairingID
  let loads := [(hkid, entry_data)]
  match removePairingOutcome with
  | none =>
      { loadPairingCalls := loads
        removePairingCalls := [hkid]
        warnings := []
        outcome := .ok () }
  | some .accessoryDisconnectedError =>
      { loadPairingCalls := loads
        removePairingCalls := [hkid]
        warnings := [unpairWarningMessage title]
        outcome := .ok () }
  | some e =>
      { loadPairingCalls := loads
        removePairingCalls := [hkid]
        warnings := []
        outcome := .error e }

/-- All identifiers of all accessories in a connection's entity map, as the
generator inside `async_remove_config_entry_device` enumerates them.
`deviceInfo` stands for `device_info_for_accessory(...)[ATTR_IDENTIFIERS]`,
implemented in the connection module outside this file. -/
def allAccessoryIdentifiers (deviceInfo : Accessory → List (String × String))
    (conn : Conn) : List (String × String) :=
  (conn.accessories.map deviceInfo).flatten

/-- Embedding of `async_remove_config_entry_device`: index the registry with
the entry's pairing id (an absent key raises `KeyError`), then return
whether the device entry's identifier set has empty intersection with the
identifiers of all accessories in the connection's entity map. -/
def async_remove_config_entry_device (reg : Registry)
    (deviceInfo : Accessory → List (String × String)) (entry_data : EntryData)
    (deviceEntryIdentifiers : List (String × String)) : Except Exn Bool :=
  match dictLookup reg entry_data.accessoryPairingID with
  | none => .error (.keyError entry_data.accessoryPairingID)
  | some conn =>
      .ok (!(deviceEntryIdentifiers.any (fun i =>
        (allAccessoryIdentifiers deviceInfo conn).any (fun j => decide (j = i)))))

/-! Registry lemmas used by the claim proofs. -/

theorem dictLookup_eq_none_of_not_contains (d : Registry) (k : String)
    (h : dictContains d k = false) : dictLookup d k = none := by
  induction d with
  | nil => rfl
  | cons p d ih =>
      simp only [dictContains, List.any_cons, Bool.or_eq_false_iff,
        decide_eq_false_iff_not] at h
      simp only [dictContains] at ih
      have h2 := ih h.2
      simp only [dictLookup] at h2 ⊢
      rw [List.find?_cons_of_neg]
      · exact h2
      · simpa using h.1

theorem dictLookup_insert_self (d : Registry) (k : String) (v : Conn) :
    dictLookup (dictInsert d k v) k = some v := by
  by_cases h : dictContains d k = true
  · simp only [dictInsert, h, if_pos]
    induction d with
    | nil => simp [dictContains] at h
    | cons p d ih =>
        by_cases hp : p.1 = k
        · simp [dictLookup, List.find?_cons_of_pos, hp]
        · simp only [dictContains, List.any_cons, decide_eq_true_eq, hp,
            Bool.false_or] at h
          simpa [dictLookup, List.find?_cons_of_neg, hp] using ih h
  · simp only [Bool.not_eq_true] at h
    simp only [dictInsert, h, Bool.false_eq_true, if_neg, not_false_iff]
    induction d with
    | nil => simp [dictLookup, List.find?]
    | cons p d ih =>
        simp only [dictContains, List.any_cons, Bool.or_eq_false_iff,
          decide_eq_false_iff_not] at h
        simp only [dictContains] at ih
        simpa [dictLookup, List.find?_cons_of_neg, h.1] using ih h.2

theorem dictLookup_erase_self (d : Registry) (k : String) :
    dictLookup (dictErase d k) k = none := by
  induction d with
  | nil => rfl
  | cons p d ih =>
      by_cases hp : p.1 = k
      · simpa [dictErase, List.filter, hp] using ih
      · simp only [dictErase, List.filter, hp, decide_not] at ih ⊢
        simp only [decide_eq_true_eq] at *
        simp [dictLookup, List.find?_cons_of_neg, hp, ih]

theorem mem_dictValues_insert (d : Registry) (k : String) (v : Conn) :
    v ∈ dictValues (dictInsert d k v) := by
  by_cases h : dictContains d k = true
  · simp only [dictInsert, h, if_pos]
    induction d with
    | nil => simp [dictContains] at h
    | cons p d ih =>
        by_cases hp : p.1 = k
        · simp [dictValues, hp]
        · simp only [dictContains, List.any_cons, decide_eq_true_eq, hp,
            Bool.false_or] at h
          simp only [dictValues, List.map_cons, List.mem_cons]
          exact Or.inr (by simpa [dictValues] using ih h)
  · simp only [Bool.not_eq_true] at h
    simp [dictInsert, h, dictValues]

/-! Concrete values used by witnesses and counterexamples. -/

/-- A concrete connection handle. -/
def connA : Conn := { unique_id := "a", accessories := [], tag := 0 }

/-- A concrete persisted config-entry record. -/
def edA : EntryData := { accessoryPairingID := "a", rest := [] }

/-- A concrete provisioning request targeting identity `"a"`. -/
def reqA : ThreadProvisionRequest :=
  { hkid := "a", network_name := "net", channel := 15, pan_id := "1234",
    extended_pan_id := "abcd", network_key := "key1", unknown_flag := 2 }

/-- C1 (amended): if `conn.async_setup()` raises one of the four transient
kinds, the registry entry inserted at the start of `async_setup_entry` is
rolled back, and — provided the best-effort `pairing.close()` raises nothing
or only a timeout — the only signal reaching the caller is
`ConfigEntryNotReady`. -/
theorem C1_transient_setup_rollback (reg : Registry) (conn : Conn) (b : Bool)
    (e : Exn) (co : Option Exn) (he : transientExn e = true) :
    dictLookup (async_setup_entry reg conn b (some e) co).registry
      conn.unique_id = none
    ∧ ((co = none ∨ co = some Exn.timeoutError) →
        (async_setup_entry reg conn b (some e) co).outcome
          = Except.error Exn.configEntryNotReady) := by
  constructor
  · cases co with
    | none => simp [async_setup_entry, he, dictLookup_erase_self]
    | some ce =>
        by_cases hce : ce = Exn.timeoutError
        · simp [async_setup_entry, he, hce, dictLookup_erase_self]
        · simp [async_setup_entry, he, hce, dictLookup_erase_self]
  · rintro (rfl | rfl)
    · simp [async_setup_entry, he]
    · simp [async_setup_entry, he]

/-- C1 witness: concrete instance of the amended claim. -/
theorem C1_transient_setup_rollback_witness :
    dictLookup (async_setup_entry [] connA false
      (some Exn.accessoryNotFoundError) none).registry connA.unique_id = none
    ∧ (async_setup_entry [] connA false
        (some Exn.accessoryNotFoundError) none).outcome
        = Except.error Exn.configEntryNotReady :=
  ⟨(C1_transient_setup_rollback [] connA false Exn.accessoryNotFoundError none
      (by decide)).1,
   (C1_transient_setup_rollback [] connA false Exn.accessoryNotFoundError none
      (by decide)).2 (Or.inl rfl)⟩

/-- C1 counterexample: when the best-effort close itself raises a
non-timeout failure (here the accessory-disconnected kind), that failure —
not `ConfigEntryNotReady` — reaches the caller, so the original claim's
"the only signal reaching the caller is the retryable-failure signal" is
false. -/
theorem C1_counterexample :
    transientExn Exn.timeoutError = true
    ∧ (async_setup_entry [] connA false (some Exn.timeoutError)
        (some Exn.accessoryDisconnectedError)).outcome
        = Except.error Exn.accessoryDisconnectedError
    ∧ (async_setup_entry [] connA false (some Exn.timeoutError)
        (some Exn.accessoryDisconnectedError)).outcome
        ≠ Except.error Exn.configEntryNotReady := by decide

/-- C2 (amended): a failure kind outside the fixed transient set is not
caught and propagates as a fatal setup error, but the connection handle is
NOT evicted from the registry — the entry inserted at the start of setup
remains, and the cleanup close is never attempted. -/
theorem C2_fatal_setup_no_eviction (reg : Registry) (conn : Conn) (b : Bool)
    (e : Exn) (co : Option Exn) (he : transientExn e = false) :
    (async_setup_entry reg conn b (some e) co).outcome = Except.error e
    ∧ dictLookup (async_setup_entry reg conn b (some e) co).registry
        conn.unique_id = some conn
    ∧ (async_setup_entry reg conn b (some e) co).closeAttempted = false := by
  refine ⟨?_, ?_, ?_⟩ <;> simp [async_setup_entry, he, dictLookup_insert_self]

/-- C2 witness: concrete instance of the amended claim. -/
theorem C2_fatal_setup_no_eviction_witness :
    (async_setup_entry [] connA false (some (Exn.otherError "ValueError"))
      none).outcome = Except.error (Exn.otherError "ValueError")
    ∧ dictLookup (async_setup_entry [] connA false
        (some (Exn.otherError "ValueError")) none).registry connA.unique_id
        = some connA :=
  ⟨(C2_fatal_setup_no_eviction [] connA false (Exn.otherError "ValueError")
      none (by decide)).1,
   (C2_fatal_setup_no_eviction [] connA false (Exn.otherError "ValueError")
      none (by decide)).2.1⟩

/-- C2 counterexample: a non-transient setup failure leaves the handle in
the registry, refuting "on such a fatal setup failure the connection handle
is evicted from the registry". -/
theorem C2_counterexample :
    transientExn (Exn.otherError "ValueError") = false
    ∧ (async_setup_entry [] connA false (some (Exn.otherError "ValueError"))
        none).outcome = Except.error (Exn.otherError "ValueError")
    ∧ dictLookup (async_setup_entry [] connA false
        (some (Exn.otherError "ValueError")) none).registry connA.unique_id
        = some connA
    ∧ dictLookup (async_setup_entry [] connA false
        (some (Exn.otherError "ValueError")) none).registry connA.unique_id
        ≠ none := by decide

/-- C7 (amended): during cleanup of a transient setup failure the
best-effort close is attempted, and only a secondary timeout raised by it is
discarded (setup then surfaces only `ConfigEntryNotReady`); any other
failure raised by the close propagates to the caller in place of the
retryable signal. -/
theorem C7_cleanup_close_suppresses_only_timeout (reg : Registry)
    (conn : Conn) (b : Bool) (e : Exn) (he : transientExn e = true) :
    (async_setup_entry reg conn b (some e) (some Exn.timeoutError)).outcome
      = Except.error Exn.configEntryNotReady
    ∧ (async_setup_entry reg conn b (some e)
        (some Exn.timeoutError)).closeAttempted = true
    ∧ (∀ ce, ce ≠ Exn.timeoutError →
        (async_setup_entry reg conn b (some e) (some ce)).outcome
          = Except.error ce) := by
  refine ⟨?_, ?_, ?_⟩
  · simp [async_setup_entry, he]
  · simp [async_setup_entry, he]
  · intro ce hce
    simp [async_setup_entry, he, hce]

/-- C7 witness: concrete instance of the amended claim. -/
theorem C7_cleanup_close_suppresses_only_timeout_witness :
    (async_setup_entry [] connA false (some Exn.encryptionError)
      (some Exn.timeoutError)).outcome = Except.error Exn.configEntryNotReady
    ∧ (async_setup_entry [] connA false (some Exn.encryptionError)
        (some (Exn.otherError "OSError"))).outcome
        = Except.error (Exn.otherError "OSError") := by
  exact ⟨(C7_cleanup_close_suppresses_only_timeout [] connA false
      Exn.encryptionError (by decide)).1,
    (C7_cleanup_close_suppresses_only_timeout [] connA false
      Exn.encryptionError (by decide)).2.2 (Exn.otherError "OSError")
      (by decide)⟩

/-- C7 counterexample: a non-timeout failure raised by the best-effort close
is not discarded — it propagates — refuting "a scoped step whose own failure
is discarded and never propagated". -/
theorem C7_counterexample :
    transientExn Exn.accessoryNotFoundError = true
    ∧ (async_setup_entry [] connA false (some Exn.accessoryNotFoundError)
        (some Exn.encryptionError)).outcome = Except.error Exn.encryptionError
    ∧ (async_setup_entry [] connA false (some Exn.accessoryNotFoundError)
        (some Exn.encryptionError)).outcome
        ≠ Except.error Exn.configEntryNotReady := by decide

/-- A 16-character network name, otherwise valid request. -/
def req16 : ThreadProvisionRequest :=
  { hkid := "a", network_name := "abcdefghijklmnop", channel := 11,
    pan_id := "1", extended_pan_id := "1", network_key := "k",
    unknown_flag := 0 }

/-- A 17-character network name, otherwise valid request. -/
def req17 : ThreadProvisionRequest :=
  { hkid := "a", network_name := "abcdefghijklmnopq", channel := 11,
    pan_id := "1", extended_pan_id := "1", network_key := "k",
    unknown_flag := 0 }

/-- C3: the thread-provisioning schema accepts a request exactly when the
network name has length at most 16, the channel lies in `[11, 26]`, the PAN
id length lies in `[1, 4]`, the extended PAN id length lies in `[1, 16]`,
the network key length lies in `[1, 32]`, and the flag byte lies in
`[0, 255]`; a rejected request never reaches the handler, so no device
operation is invoked. -/
theorem C3_schema_contract (req : ThreadProvisionRequest) (reg : Registry)
    (po : Option Exn) :
    (schemaAccepts req = true ↔
      (req.network_name.length ≤ 16
        ∧ (11 ≤ req.channel ∧ req.channel ≤ 26)
        ∧ (1 ≤ req.pan_id.length ∧ req.pan_id.length ≤ 4)
        ∧ (1 ≤ req.extended_pan_id.length ∧ req.extended_pan_id.length ≤ 16)
        ∧ (1 ≤ req.network_key.length ∧ req.network_key.length ≤ 32)
        ∧ (0 ≤ req.unknown_flag ∧ req.unknown_flag ≤ 255)))
    ∧ (schemaAccepts req = false →
        thread_provision_service reg po req = ServiceDispatch.invalid) := by
  constructor
  · simp only [schemaAccepts, Bool.and_eq_true, decide_eq_true_eq]
    omega
  · intro h
    simp [thread_provision_service, h]

/-- C3 witness: the boundary instance — a 16-character network name is
accepted, a 17-character one is rejected and the service dispatch stops
before the handler. -/
theorem C3_schema_contract_witness :
    schemaAccepts req16 = true
    ∧ schemaAccepts req17 = false
    ∧ thread_provision_service [] none req17 = ServiceDispatch.invalid :=
  ⟨by decide, by decide,
    (C3_schema_contract req17 [] none).2 (by decide)⟩

/-- C4 (amended): for a provisioning request whose target identity is absent
from the registry, the handler returns without error, never invokes the
pairing client's provisioning operation, and emits exactly one
unknown-device warning — preceded by the unconditional redacted diagnostic
warning, so exactly two warnings in total. -/
theorem C4_unknown_target (reg : Registry) (po : Option Exn)
    (req : ThreadProvisionRequest)
    (h : dictLookup reg req.hkid = none) :
    (thread_provision reg po req).outcome = Except.ok ()
    ∧ (thread_provision reg po req).provisionCalls = []
    ∧ (thread_provision reg po req).warnings
        = [credentialsLogMessage req, "Unknown HKID"]
    ∧ (thread_provision reg po req).warnings.length = 2 := by
  refine ⟨?_, ?_, ?_, ?_⟩ <;> simp [thread_provision, h]

/-- C4 witness: concrete instance of the amended claim. -/
theorem C4_unknown_target_witness :
    (thread_provision [] none reqA).outcome = Except.ok ()
    ∧ (thread_provision [] none reqA).provisionCalls = []
    ∧ (thread_provision [] none reqA).warnings.length = 2 :=
  ⟨(C4_unknown_target [] none reqA rfl).1,
   (C4_unknown_target [] none reqA rfl).2.1,
   (C4_unknown_target [] none reqA rfl).2.2.2⟩

/-- C4 counterexample: with the target identity absent the handler emits two
warnings (the unconditional redacted diagnostic record plus "Unknown HKID"),
refuting "emits exactly one warning". -/
theorem C4_counterexample :
    dictLookup [] reqA.hkid = none
    ∧ (thread_provision [] none reqA).warnings.length = 2
    ∧ (thread_provision [] none reqA).warnings.length ≠ 1 := by
  refine ⟨rfl, ?_, ?_⟩ <;> simp [thread_provision, dictLookup, List.find?]

/-- C8: the handler's log output does not depend on the network-key field:
two schema-valid requests that agree on every field except the network key
produce identical warning records (the diagnostic record carries the fixed
marker `REDACTED` in the key's slot). -/
theorem C8_network_key_noninterference (reg : Registry) (po : Option Exn)
    (r1 r2 : ThreadProvisionRequest)
    (_hv1 : schemaAccepts r1 = true) (_hv2 : schemaAccepts r2 = true)
    (h1 : r1.hkid = r2.hkid) (h2 : r1.network_name = r2.network_name)
    (h3 : r1.channel = r2.channel) (h4 : r1.pan_id = r2.pan_id)
    (h5 : r1.extended_pan_id = r2.extended_pan_id)
    (h6 : r1.unknown_flag = r2.unknown_flag) :
    (thread_provision reg po r1).warnings
      = (thread_provision reg po r2).warnings := by
  have hd : credentialsLogMessage r1 = credentialsLogMessage r2 := by
    simp [credentialsLogMessage, h1, h2, h3, h4, h5, h6]
  simp only [thread_provision, h1]
  cases dictLookup reg r2.hkid <;> simp [hd]

/-- C8 witness: two concrete valid requests differing only in the network
key yield identical log output. -/
theorem C8_network_key_noninterference_witness :
    (thread_provision [] none req16).warnings
      = (thread_provision [] none
          { req16 with network_key := "othersecret" }).warnings :=
  C8_network_key_noninterference [] none req16
    { req16 with network_key := "othersecret" }
    (by decide) (by decide) rfl rfl rfl rfl rfl rfl

/-- C5: device removal builds a fresh pairing client from the persisted
configuration record (its behaviour is independent of the registry contents,
which it never consults) and issues unpair; an accessory-disconnected
failure during unpair is non-fatal — exactly one operator warning, success
returned; any other unpair failure propagates. -/
theorem C5_remove_entry (reg reg2 : Registry) (ed : EntryData)
    (title : String) (out : Option Exn) :
    async_remove_entry reg ed title out = async_remove_entry reg2 ed title out
    ∧ (async_remove_entry reg ed title out).loadPairingCalls
        = [(ed.accessoryPairingID, ed)]
    ∧ (async_remove_entry reg ed title out).removePairingCalls
        = [ed.accessoryPairingID]
    ∧ (out = some Exn.accessoryDisconnectedError →
        (async_remove_entry reg ed title out).outcome = Except.ok ()
        ∧ (async_remove_entry reg ed title out).warnings
            = [unpairWarningMessage title])
    ∧ (out = none →
        (async_remove_entry reg ed title out).outcome = Except.ok ()
        ∧ (async_remove_entry reg ed title out).warnings = [])
    ∧ (∀ e, out = some e → e ≠ Exn.accessoryDisconnectedError →
        (async_remove_entry reg ed title out).outcome = Except.error e) := by
  cases out with
  | none => simp [async_remove_entry]
  | some e => cases e <;> simp [async_remove_entry]

/-- C5 witness: unpair against an unreachable accessory returns success with
exactly one operator warning. -/
theorem C5_remove_entry_witness :
    (async_remove_entry [] edA "Kitchen"
      (some Exn.accessoryDisconnectedError)).outcome = Except.ok ()
    ∧ (async_remove_entry [] edA "Kitchen"
        (some Exn.accessoryDisconnectedError)).warnings
        = [unpairWarningMessage "Kitchen"] :=
  (C5_remove_entry [] [] edA "Kitchen"
    (some Exn.accessoryDisconnectedError)).2.2.2.1 rfl

/-- C6: the shutdown listener fans the graceful-unload operation out over
exactly the connections registered at that moment and gathers one resolved
unload result per connection (so it completes only once every unload has
resolved); a connection whose setup succeeded is still registered and is
part of the fan-out. -/
theorem C6_shutdown_fanout {α : Type} (unload : Conn → α) (reg : Registry)
    (conn : Conn) (b : Bool) (co : Option Exn) :
    (stop_homekit_controller unload reg).unloadCalls = dictValues reg
    ∧ (stop_homekit_controller unload reg).gathered
        = (dictValues reg).map unload
    ∧ (stop_homekit_controller unload reg).gathered.length
        = (stop_homekit_controller unload reg).unloadCalls.length
    ∧ conn ∈ (stop_homekit_controller unload
        (async_setup_entry reg conn b none co).registry).unloadCalls := by
  refine ⟨rfl, rfl, by simp [stop_homekit_controller], ?_⟩
  simpa [stop_homekit_controller, async_setup_entry]
    using mem_dictValues_insert reg conn.unique_id conn

/-- C9: single-device unload always returns `True`; with the identity
registered it invokes that connection's graceful-unload operation and makes
no registry change of its own (the post-registry is exactly whatever the
unload operation left); with the identity absent it invokes nothing and
leaves the registry unchanged. -/
theorem C9_unload_entry (reg : Registry)
    (unloadEffect : Conn → Registry → Registry) (ed : EntryData) :
    (async_unload_entry reg unloadEffect ed).outcome = Except.ok true
    ∧ (∀ conn, dictLookup reg ed.accessoryPairingID = some conn →
        (async_unload_entry reg unloadEffect ed).unloadCalls = [conn]
        ∧ (async_unload_entry reg unloadEffect ed).registry
            = unloadEffect conn reg)
    ∧ (dictLookup reg ed.accessoryPairingID = none →
        (async_unload_entry reg unloadEffect ed).unloadCalls = []
        ∧ (async_unload_entry reg unloadEffect ed).registry = reg) := by
  cases h : dictLookup reg ed.accessoryPairingID <;>
    simp [async_unload_entry, h]

/-- C9 witness: unloading an identity that never completed setup is a no-op
returning `True`. -/
theorem C9_unload_entry_witness :
    (async_unload_entry [] (fun _ r => r) edA).outcome = Except.ok true
    ∧ (async_unload_entry [] (fun _ r => r) edA).unloadCalls = []
    ∧ (async_unload_entry [] (fun _ r => r) edA).registry = [] :=
  ⟨(C9_unload_entry [] (fun _ r => r) edA).1,
   ((C9_unload_entry [] (fun _ r => r) edA).2.2 rfl).1,
   ((C9_unload_entry [] (fun _ r => r) edA).2.2 rfl).2⟩

/-- C10: the device-identifier export indexes the registry unconditionally —
for a registered identity it returns whether the device entry's identifiers
are disjoint from the identifiers of all accessories in the connection's
entity map, and for an unregistered identity it raises `KeyError` instead of
returning a decision. -/
theorem C10_remove_device_export (reg : Registry)
    (deviceInfo : Accessory → List (String × String)) (ed : EntryData)
    (ids : List (String × String)) :
    (dictLookup reg ed.accessoryPairingID = none →
      async_remove_config_entry_device reg deviceInfo ed ids
        = Except.error (Exn.keyError ed.accessoryPairingID))
    ∧ (∀ conn, dictLookup reg ed.accessoryPairingID = some conn →
        (∃ v, async_remove_config_entry_device reg deviceInfo ed ids
            = Except.ok v)
        ∧ (async_remove_config_entry_device reg deviceInfo ed ids
              = Except.ok true ↔
            ∀ i ∈ ids, i ∉ allAccessoryIdentifiers deviceInfo conn)) := by
  constructor
  · intro h
    simp [async_remove_config_entry_device, h]
  · intro conn h
    have hok : async_remove_config_entry_device reg deviceInfo ed ids
        = Except.ok (!(ids.any fun i =>
            (allAccessoryIdentifiers deviceInfo conn).any fun j =>
              decide (j = i))) := by
      simp [async_remove_config_entry_device, h]
    constructor
    · exact ⟨_, hok⟩
    · rw [hok]
      simp

/-- C10 witness: an unregistered identity raises `KeyError`; a registered
one returns the disjointness decision. -/
theorem C10_remove_device_export_witness :
    async_remove_config_entry_device [] (fun _ => []) edA []
      = Except.error (Exn.keyError edA.accessoryPairingID)
    ∧ (async_remove_config_entry_device [("a", connA)] (fun _ => []) edA []
        = Except.ok true ↔
        ∀ i ∈ ([] : List (String × String)),
          i ∉ allAccessoryIdentifiers (fun _ => []) connA) :=
  ⟨(C10_remove_device_export [] (fun _ => []) edA []).1 rfl,
   ((C10_remove_device_export [("a", connA)] (fun _ => []) edA []).2 connA
      (by decide)).2⟩
